import Mathlib

/-!
Shallow embedding of `gofsutil_mount_linux.go` from inspur-ics/gofsutil.

External effects (running `blkid`, `mkfs.*`, the mount primitive, and
reading the mount-table file) are modelled by an environment record of
oracles; each embedded operation returns its Go result together with the
trace of external commands it issued, so that claims about which
commands are (not) invoked can be stated.
-/

namespace Gofsutil

/-- Constant procMountsPath from the source. -/
def procMountsPath : String := "/proc/self/mountinfo"

/-- Constant procMountsRetries: number of retries for a consistent read. -/
def procMountsRetries : Nat := 3

/-- Package variable bindRemountOpts (declared in the source, line 21). -/
def bindRemountOpts : List String := ["remount"]

/-- One external command issued by the code. -/
inductive Cmd where
  | blkid (args : List String)
  | mkfs (cmd : String) (args : List String)
  | mount (source target fsType : String) (opts : List String)
  | doMount (mntCmd source target fsType : String) (opts : List String)
  deriving DecidableEq, Repr

/-- Whether a command is an invocation of a format utility `mkfs.*`. -/
def Cmd.isMkfs : Cmd → Bool
  | Cmd.mkfs _ _ => true
  | _ => false

/-- Oracle environment for the external process executions.
Go `error` values are modelled as `Option String` (`none` = nil error). -/
structure ExecEnv where
  blkidErr : Bool
  blkidOut : String
  mkfsRun : String → List String → Option String
  mountRes : String → String → String → List String → Option String
  doMountRes : String → String → String → String → List String → Option String

/-- Model of Go strings.TrimSpace: drop leading and trailing whitespace
characters from a string. -/
def trimSpace (s : String) : String :=
  String.mk
    (((s.data.dropWhile Char.isWhitespace).reverse.dropWhile
      Char.isWhitespace).reverse)

/-- Embedding of `FS.getDiskFormat`: runs `blkid -s TYPE -o value disk`;
a failing exit or empty (after trimming) output yields `("", nil)`,
otherwise the trimmed output is the existing filesystem type. -/
def getDiskFormat (env : ExecEnv) (disk : String) :
    (String × Option String) × List Cmd :=
  let args := ["-s", "TYPE", "-o", "value", disk]
  let tr := [Cmd.blkid args]
  if env.blkidErr then
    (("", none), tr)
  else
    let fsType := trimSpace env.blkidOut
    if fsType ≠ "" then
      ((fsType, none), tr)
    else
      (("", none), tr)

/-- The `fmt.Errorf` message built by `formatAndMount` when the device is
already formatted with a different filesystem than requested. -/
def mismatchError (fsType existingFormat mountErr : String) : String :=
  "failed to mount volume as \"" ++ fsType ++ "\"; already contains " ++
    existingFormat ++ ": error: " ++ mountErr

/-- Embedding of `FS.formatAndMount`. -/
def formatAndMount (env : ExecEnv) (source target fsType : String)
    (opts : List String) : Option String × List Cmd :=
  let opts := opts ++ ["defaults"]
  let pr := getDiskFormat env source
  let existingFormat := pr.1.1
  let tr := pr.2
  match pr.1.2 with
  | some e => (some e, tr)
  | none =>
    if existingFormat = "" then
      let fsType := if fsType = "" then "ext4" else fsType
      let args := if fsType = "ext4" ∨ fsType = "ext3" then ["-F", source]
                  else [source]
      let mkfsCmd := "mkfs." ++ fsType
      match env.mkfsRun mkfsCmd args with
      | some e => (some e, tr ++ [Cmd.mkfs mkfsCmd args])
      | none =>
        (env.mountRes source target fsType opts,
          tr ++ [Cmd.mkfs mkfsCmd args, Cmd.mount source target fsType opts])
    else
      match env.mountRes source target fsType opts with
      | none => (none, tr ++ [Cmd.mount source target fsType opts])
      | some mountErr =>
        if fsType = "" ∨ fsType = existingFormat then
          (some mountErr, tr ++ [Cmd.mount source target fsType opts])
        else
          (some (mismatchError fsType existingFormat mountErr),
            tr ++ [Cmd.mount source target fsType opts])

/-- Embedding of `FS.bindMount`: a bind mount, then a second `doMount`
with the caller's options (the source passes `opts...` unchanged). -/
def bindMount (env : ExecEnv) (source target : String) (opts : List String) :
    Option String × List Cmd :=
  match env.doMountRes "mount" source target "" ["bind"] with
  | some e => (some e, [Cmd.doMount "mount" source target "" ["bind"]])
  | none =>
    (env.doMountRes "mount" source target "" opts,
      [Cmd.doMount "mount" source target "" ["bind"],
        Cmd.doMount "mount" source target "" opts])

/-- Oracle environment for the mount-table reads.  `readAt k` is the raw
content of the mount-table file at the `k`-th read during one
`getMounts` call (or the I/O error of that read); `hashFn` and `parseFn`
model the fingerprint and the external line parser of
`ReadProcMountsFrom`, both pure functions of the raw content. -/
structure MountsEnv (α : Type) where
  readAt : Nat → Except String String
  hashFn : String → Nat
  parseFn : String → List α

variable {α : Type}

/-- Embedding of `FS.readProcMounts` at the `k`-th read: open/read the
file, parse entries only when `info` is set, and fingerprint the raw
content. -/
def readProcMounts (env : MountsEnv α) (k : Nat) (info : Bool) :
    Except String (List α × Nat) :=
  match env.readAt k with
  | Except.error e => Except.error e
  | Except.ok s =>
      Except.ok ((if info then env.parseFn s else []), env.hashFn s)

/-- The `fmt.Errorf` message of `getMounts` when no consistent snapshot
was obtained. -/
def snapshotError : String :=
  "failed to get a consistent snapshot of " ++ procMountsPath ++
    " after " ++ toString procMountsRetries ++ " tries"

/-- The retry loop of `FS.getMounts`: `hash1` is the previous
fingerprint, `k` the index of the next read, `i` the remaining retries.
Returns the Go result together with the number of loop iterations that
executed a read. -/
def getMountsLoop (env : MountsEnv α) (hash1 k : Nat) :
    Nat → Except String (List α) × Nat
  | 0 => (Except.error snapshotError, 0)
  | i + 1 =>
    match readProcMounts env k true with
    | Except.error e => (Except.error e, 1)
    | Except.ok (mps, hash2) =>
      if hash1 = hash2 then (Except.ok mps, 1)
      else
        let r := getMountsLoop env hash2 (k + 1) i
        (r.1, r.2 + 1)

/-- Embedding of `FS.getMounts`: one fingerprint-only read, then up to
`procMountsRetries` full reads until two consecutive fingerprints agree.
The second component counts the retry-loop iterations performed. -/
def getMounts (env : MountsEnv α) : Except String (List α) × Nat :=
  match readProcMounts env 0 false with
  | Except.error e => (Except.error e, 0)
  | Except.ok (_, hash1) => getMountsLoop env hash1 1 procMountsRetries

/-- The filesystem type the probe reports in a given environment: blkid
failure reads as empty, otherwise the trimmed blkid output. -/
def probedType (env : ExecEnv) : String :=
  if env.blkidErr then "" else trimSpace env.blkidOut

/-- Closed form of the probe: the reported type is `probedType`, the
error is always nil, and the only command issued is the blkid
invocation. -/
lemma getDiskFormat_spec (env : ExecEnv) (disk : String) :
    getDiskFormat env disk =
      ((probedType env, none),
        [Cmd.blkid ["-s", "TYPE", "-o", "value", disk]]) := by
  unfold getDiskFormat probedType
  by_cases hb : env.blkidErr
  · simp [hb]
  · by_cases ht : trimSpace env.blkidOut = "" <;> simp [hb, ht]

/-- Closed form of formatAndMount on the already-formatted path: the
only external commands are the probe and one mount attempt, and the
result classifies a mount error by comparing the requested and probed
types. -/
lemma formatAndMount_formatted (env : ExecEnv)
    (source target fsType : String) (opts : List String)
    (h : probedType env ≠ "") :
    formatAndMount env source target fsType opts =
      (match env.mountRes source target fsType (opts ++ ["defaults"]) with
        | none => none
        | some mountErr =>
          if fsType = "" ∨ fsType = probedType env then some mountErr
          else some (mismatchError fsType (probedType env) mountErr),
        [Cmd.blkid ["-s", "TYPE", "-o", "value", source],
          Cmd.mount source target fsType (opts ++ ["defaults"])]) := by
  unfold formatAndMount
  rw [getDiskFormat_spec]
  simp only [if_neg h]
  rcases hm : env.mountRes source target fsType (opts ++ ["defaults"]) with
    _ | e <;> simp [hm]
  split <;> rfl

/-- A concrete environment: probe reports xfs, mkfs succeeds, the mount
primitive fails with a fixed message, doMount succeeds. -/
def envFormatted : ExecEnv :=
  ⟨false, "xfs\n", fun _ _ => none, fun _ _ _ _ => some "mount failed",
    fun _ _ _ _ _ => none⟩

/-- A concrete environment: blkid exits with an error. -/
def envProbeFail : ExecEnv :=
  ⟨true, "", fun _ _ => none, fun _ _ _ _ => none, fun _ _ _ _ _ => none⟩

/-- A concrete environment: probe reports an unformatted device, mkfs
and mount succeed. -/
def envBlank : ExecEnv :=
  ⟨false, " \n", fun _ _ => none, fun _ _ _ _ => none, fun _ _ _ _ _ => none⟩

/-- A concrete environment: the first doMount (the bind step) fails. -/
def envBindFail : ExecEnv :=
  ⟨false, "", fun _ _ => none, fun _ _ _ _ => none,
    fun _ _ _ _ _ => some "bind failed"⟩

/-- C1: if the probe reports a non-empty existing filesystem type, then
no command in the trace of formatAndMount is a mkfs invocation,
whatever the requested type, the options, and the mount outcome. -/
theorem formatAndMount_never_formats (env : ExecEnv)
    (source target fsType : String) (opts : List String)
    (h : (getDiskFormat env source).1.1 ≠ "") :
    ∀ c ∈ (formatAndMount env source target fsType opts).2,
      c.isMkfs = false := by
  have h' : probedType env ≠ "" := by
    rw [getDiskFormat_spec] at h
    simpa using h
  intro c hc
  rw [formatAndMount_formatted env source target fsType opts h'] at hc
  simp only [List.mem_cons, List.not_mem_nil, or_false] at hc
  rcases hc with rfl | rfl <;> rfl

/-- Witness for C1 at a concrete environment whose probe reports xfs. -/
theorem formatAndMount_never_formats_witness :
    (getDiskFormat envFormatted "/dev/sda").1.1 ≠ "" ∧
      ∀ c ∈ (formatAndMount envFormatted "/dev/sda" "/mnt" "ext4" ["rw"]).2,
        c.isMkfs = false :=
  ⟨by decide,
    formatAndMount_never_formats envFormatted "/dev/sda" "/mnt" "ext4"
      ["rw"] (by decide)⟩

/-- C6: getDiskFormat reports an empty type and a nil error both when
blkid exits with a failure status and when its output is empty or
whitespace-only; an unrecognized filesystem is never surfaced as an
error. -/
theorem getDiskFormat_blank_no_error (env : ExecEnv) (disk : String)
    (h : env.blkidErr = true ∨ trimSpace env.blkidOut = "") :
    (getDiskFormat env disk).1 = ("", none) := by
  rw [getDiskFormat_spec]
  rcases h with h | h <;> simp [probedType, h]

/-- Witness for C6: a failing blkid and a whitespace-only blkid output
both yield an empty type and a nil error. -/
theorem getDiskFormat_blank_no_error_witness :
    (envProbeFail.blkidErr = true ∧
        (getDiskFormat envProbeFail "/dev/sdb").1 = ("", none)) ∧
      (trimSpace envBlank.blkidOut = "" ∧
        (getDiskFormat envBlank "/dev/sdb").1 = ("", none)) :=
  ⟨⟨rfl, getDiskFormat_blank_no_error envProbeFail "/dev/sdb" (Or.inl rfl)⟩,
    ⟨rfl, getDiskFormat_blank_no_error envBlank "/dev/sdb" (Or.inr rfl)⟩⟩

/-- Variant of formatAndMount with the probe-error return branch
deleted, used only to state that this branch is unreachable. -/
def formatAndMountNoProbeErr (env : ExecEnv) (source target fsType : String)
    (opts : List String) : Option String × List Cmd :=
  let opts := opts ++ ["defaults"]
  let pr := getDiskFormat env source
  let existingFormat := pr.1.1
  let tr := pr.2
  if existingFormat = "" then
    let fsType := if fsType = "" then "ext4" else fsType
    let args := if fsType = "ext4" ∨ fsType = "ext3" then ["-F", source]
                else [source]
    let mkfsCmd := "mkfs." ++ fsType
    match env.mkfsRun mkfsCmd args with
    | some e => (some e, tr ++ [Cmd.mkfs mkfsCmd args])
    | none =>
      (env.mountRes source target fsType opts,
        tr ++ [Cmd.mkfs mkfsCmd args, Cmd.mount source target fsType opts])
  else
    match env.mountRes source target fsType opts with
    | none => (none, tr ++ [Cmd.mount source target fsType opts])
    | some mountErr =>
      if fsType = "" ∨ fsType = existingFormat then
        (some mountErr, tr ++ [Cmd.mount source target fsType opts])
      else
        (some (mismatchError fsType existingFormat mountErr),
          tr ++ [Cmd.mount source target fsType opts])

/-- C9: getDiskFormat returns a nil error on every input, so the
probe-error branch of formatAndMount is unreachable: deleting it leaves
the function unchanged. -/
theorem getDiskFormat_never_errors (env : ExecEnv) (disk : String)
    (source target fsType : String) (opts : List String) :
    (getDiskFormat env disk).1.2 = none ∧
      formatAndMount env source target fsType opts =
        formatAndMountNoProbeErr env source target fsType opts := by
  constructor
  · rw [getDiskFormat_spec]
  · unfold formatAndMount formatAndMountNoProbeErr
    rw [getDiskFormat_spec]

/-- C8: when the initial bind step of bindMount fails, its error is
returned unchanged and the second doMount is never attempted. -/
theorem bindMount_bind_failure (env : ExecEnv) (source target : String)
    (opts : List String) (e : String)
    (h : env.doMountRes "mount" source target "" ["bind"] = some e) :
    bindMount env source target opts =
      (some e, [Cmd.doMount "mount" source target "" ["bind"]]) := by
  unfold bindMount
  rw [h]

/-- Witness for C8 at a concrete environment whose bind step fails. -/
theorem bindMount_bind_failure_witness :
    envBindFail.doMountRes "mount" "/dev/sdc" "/mnt" "" ["bind"] =
        some "bind failed" ∧
      bindMount envBindFail "/dev/sdc" "/mnt" ["ro"] =
        (some "bind failed",
          [Cmd.doMount "mount" "/dev/sdc" "/mnt" "" ["bind"]]) :=
  ⟨rfl,
    bindMount_bind_failure envBindFail "/dev/sdc" "/mnt" ["ro"] "bind failed"
      rfl⟩

/-- C3 (refuting the claim as stated): with a succeeding mount
primitive, the second doMount issued by bindMount carries only the
caller's options ["rw"]; the remount option from the declared
bindRemountOpts is absent from it. -/
theorem bindMount_second_mount_lacks_remount :
    bindMount envFormatted "/dev/sdd" "/mnt" ["rw"] =
      (none,
        [Cmd.doMount "mount" "/dev/sdd" "/mnt" "" ["bind"],
          Cmd.doMount "mount" "/dev/sdd" "/mnt" "" ["rw"]]) ∧
      bindRemountOpts = ["remount"] ∧
      "remount" ∉ (["rw"] : List String) :=
  ⟨rfl, rfl, by decide⟩

/-- C3 (amended): bindMount first performs the bind step with no
filesystem type and then, on success, re-invokes the mount primitive
with exactly the caller's requested options; no remount option is added
by bindMount itself. -/
theorem bindMount_two_steps (env : ExecEnv) (source target : String)
    (opts : List String)
    (h : env.doMountRes "mount" source target "" ["bind"] = none) :
    bindMount env source target opts =
      (env.doMountRes "mount" source target "" opts,
        [Cmd.doMount "mount" source target "" ["bind"],
          Cmd.doMount "mount" source target "" opts]) := by
  unfold bindMount
  rw [h]

/-- Witness for the amended C3 at a concrete environment whose bind
step succeeds. -/
theorem bindMount_two_steps_witness :
    envFormatted.doMountRes "mount" "/dev/sde" "/mnt2" "" ["bind"] = none ∧
      bindMount envFormatted "/dev/sde" "/mnt2" ["ro"] =
        (none,
          [Cmd.doMount "mount" "/dev/sde" "/mnt2" "" ["bind"],
            Cmd.doMount "mount" "/dev/sde" "/mnt2" "" ["ro"]]) :=
  ⟨rfl, bindMount_two_steps envFormatted "/dev/sde" "/mnt2" ["ro"] rfl⟩

/-- On the unformatted path with a failing mkfs, formatAndMount returns
the mkfs error and never reaches the mount step. -/
lemma formatAndMount_unformatted_mkfs_err (env : ExecEnv)
    (source target fsType : String) (opts : List String) (e : String)
    (h : probedType env = "")
    (hk : env.mkfsRun ("mkfs." ++ (if fsType = "" then "ext4" else fsType))
        (if (if fsType = "" then "ext4" else fsType) = "ext4" ∨
            (if fsType = "" then "ext4" else fsType) = "ext3"
          then ["-F", source] else [source]) = some e) :
    formatAndMount env source target fsType opts =
      (some e,
        [Cmd.blkid ["-s", "TYPE", "-o", "value", source],
          Cmd.mkfs ("mkfs." ++ (if fsType = "" then "ext4" else fsType))
            (if (if fsType = "" then "ext4" else fsType) = "ext4" ∨
                (if fsType = "" then "ext4" else fsType) = "ext3"
              then ["-F", source] else [source])]) := by
  unfold formatAndMount
  rw [getDiskFormat_spec]
  simp only [h, if_pos rfl]
  rw [hk]
  simp

/-- On the unformatted path with a succeeding mkfs, formatAndMount
mounts with the effective type and the augmented options, propagating
the mount result unchanged. -/
lemma formatAndMount_unformatted_mkfs_ok (env : ExecEnv)
    (source target fsType : String) (opts : List String)
    (h : probedType env = "")
    (hk : env.mkfsRun ("mkfs." ++ (if fsType = "" then "ext4" else fsType))
        (if (if fsType = "" then "ext4" else fsType) = "ext4" ∨
            (if fsType = "" then "ext4" else fsType) = "ext3"
          then ["-F", source] else [source]) = none) :
    formatAndMount env source target fsType opts =
      (env.mountRes source target (if fsType = "" then "ext4" else fsType)
          (opts ++ ["defaults"]),
        [Cmd.blkid ["-s", "TYPE", "-o", "value", source],
          Cmd.mkfs ("mkfs." ++ (if fsType = "" then "ext4" else fsType))
            (if (if fsType = "" then "ext4" else fsType) = "ext4" ∨
                (if fsType = "" then "ext4" else fsType) = "ext3"
              then ["-F", source] else [source]),
          Cmd.mount source target (if fsType = "" then "ext4" else fsType)
            (opts ++ ["defaults"])]) := by
  unfold formatAndMount
  rw [getDiskFormat_spec]
  simp only [h, if_pos rfl]
  rw [hk]
  simp

/-- C7: on the unformatted path, the effective type is the requested one
or ext4 when none was requested, the mkfs arguments carry the force flag
exactly for ext4 and ext3, a failing mkfs aborts with its error before
any mount, and a succeeding mkfs is followed by a mount with the
effective type and the augmented options whose result is returned
unchanged. -/
theorem formatAndMount_unformatted_behavior (env : ExecEnv)
    (source target fsType effType : String) (opts args : List String)
    (h : (getDiskFormat env source).1.1 = "")
    (heff : effType = if fsType = "" then "ext4" else fsType)
    (hargs : args = if effType = "ext4" ∨ effType = "ext3"
        then ["-F", source] else [source]) :
    (∀ e, env.mkfsRun ("mkfs." ++ effType) args = some e →
        formatAndMount env source target fsType opts =
          (some e,
            [Cmd.blkid ["-s", "TYPE", "-o", "value", source],
              Cmd.mkfs ("mkfs." ++ effType) args])) ∧
      (env.mkfsRun ("mkfs." ++ effType) args = none →
        formatAndMount env source target fsType opts =
          (env.mountRes source target effType (opts ++ ["defaults"]),
            [Cmd.blkid ["-s", "TYPE", "-o", "value", source],
              Cmd.mkfs ("mkfs." ++ effType) args,
              Cmd.mount source target effType (opts ++ ["defaults"])])) := by
  have h' : probedType env = "" := by
    rw [getDiskFormat_spec] at h
    simpa using h
  subst heff
  subst hargs
  constructor
  · intro e hk
    exact formatAndMount_unformatted_mkfs_err env source target fsType opts e
      h' hk
  · intro hk
    exact formatAndMount_unformatted_mkfs_ok env source target fsType opts
      h' hk

/-- Witness for C7: a blank device, an empty requested type (so the
effective type defaults to ext4 and gets the force flag) and a
succeeding mkfs lead to a mount with ext4 and the augmented options. -/
theorem formatAndMount_unformatted_behavior_witness :
    ((getDiskFormat envBlank "/dev/sde").1.1 = "" ∧
        ("ext4" : String) = (if ("" : String) = "" then "ext4" else "") ∧
        (["-F", "/dev/sde"] : List String) =
          (if ("ext4" : String) = "ext4" ∨ ("ext4" : String) = "ext3"
            then ["-F", "/dev/sde"] else ["/dev/sde"])) ∧
      (envBlank.mkfsRun "mkfs.ext4" ["-F", "/dev/sde"] = none →
        formatAndMount envBlank "/dev/sde" "/mnt" "" ["noatime"] =
          (envBlank.mountRes "/dev/sde" "/mnt" "ext4"
              (["noatime"] ++ ["defaults"]),
            [Cmd.blkid ["-s", "TYPE", "-o", "value", "/dev/sde"],
              Cmd.mkfs "mkfs.ext4" ["-F", "/dev/sde"],
              Cmd.mount "/dev/sde" "/mnt" "ext4"
                (["noatime"] ++ ["defaults"])])) :=
  ⟨⟨by decide, by decide, by decide⟩,
    (formatAndMount_unformatted_behavior envBlank "/dev/sde" "/mnt" ""
      "ext4" ["noatime"] ["-F", "/dev/sde"] (by decide) (by decide)
      (by decide)).2⟩

/-- C10: every mount command issued by formatAndMount, on either path,
carries the caller's options followed by the appended defaults option. -/
theorem formatAndMount_defaults_appended (env : ExecEnv)
    (source target fsType : String) (opts : List String)
    (s' t' ft' : String) (op : List String)
    (hmem : Cmd.mount s' t' ft' op ∈
      (formatAndMount env source target fsType opts).2) :
    op = opts ++ ["defaults"] := by
  by_cases h : probedType env = ""
  · rcases hk : env.mkfsRun
        ("mkfs." ++ (if fsType = "" then "ext4" else fsType))
        (if (if fsType = "" then "ext4" else fsType) = "ext4" ∨
            (if fsType = "" then "ext4" else fsType) = "ext3"
          then ["-F", source] else [source]) with _ | e
    · rw [formatAndMount_unformatted_mkfs_ok env source target fsType opts h
        hk] at hmem
      simp only [List.mem_cons, List.not_mem_nil, or_false] at hmem
      rcases hmem with hmem | hmem | hmem <;> simp_all
    · rw [formatAndMount_unformatted_mkfs_err env source target fsType opts e
        h hk] at hmem
      simp at hmem
  · rw [formatAndMount_formatted env source target fsType opts h] at hmem
    simp only [List.mem_cons, List.not_mem_nil, or_false] at hmem
    rcases hmem with hmem | hmem <;> simp_all

/-- Witness for C10: on the already-formatted path the issued mount
command carries the caller option followed by defaults. -/
theorem formatAndMount_defaults_appended_witness :
    Cmd.mount "/dev/sda" "/mnt" "xfs" ["rw", "defaults"] ∈
        (formatAndMount envFormatted "/dev/sda" "/mnt" "xfs" ["rw"]).2 ∧
      (["rw", "defaults"] : List String) = ["rw"] ++ ["defaults"] :=
  ⟨by decide,
    formatAndMount_defaults_appended envFormatted "/dev/sda" "/mnt" "xfs"
      ["rw"] "/dev/sda" "/mnt" "xfs" ["rw", "defaults"] (by decide)⟩

/-- C2: on the already-formatted path with a failing mount, an empty or
matching requested type returns the raw mount error unchanged, while a
non-empty requested type that differs from the probed type returns the
mismatch error, whose message names both the requested and the on-disk
type. -/
theorem formatAndMount_mount_error_classified (env : ExecEnv)
    (source target fsType : String) (opts : List String) (m : String)
    (h : (getDiskFormat env source).1.1 ≠ "")
    (hm : env.mountRes source target fsType (opts ++ ["defaults"]) = some m) :
    ((fsType = "" ∨ fsType = (getDiskFormat env source).1.1 →
        (formatAndMount env source target fsType opts).1 = some m) ∧
      (fsType ≠ "" → fsType ≠ (getDiskFormat env source).1.1 →
        (formatAndMount env source target fsType opts).1 =
          some (mismatchError fsType ((getDiskFormat env source).1.1) m))) ∧
      ∀ t x m', (∃ a b : String, mismatchError t x m' = a ++ (t ++ b)) ∧
        ∃ a b : String, mismatchError t x m' = a ++ (x ++ b) := by
  have h' : probedType env ≠ "" := by
    rw [getDiskFormat_spec] at h
    simpa using h
  have hg : (getDiskFormat env source).1.1 = probedType env := by
    rw [getDiskFormat_spec]
  rw [hg]
  constructor
  · constructor
    · intro hcase
      rw [formatAndMount_formatted env source target fsType opts h', hm]
      simp [if_pos hcase]
    · intro h1 h2
      rw [formatAndMount_formatted env source target fsType opts h', hm]
      have hneg : ¬(fsType = "" ∨ fsType = probedType env) := by tauto
      simp [if_neg hneg]
  · intro t x m'
    constructor
    · exact ⟨"failed to mount volume as \"",
        "\"; already contains " ++ x ++ ": error: " ++ m',
        by simp [mismatchError, String.append_assoc]⟩
    · exact ⟨"failed to mount volume as \"" ++ t ++ "\"; already contains ",
        ": error: " ++ m', by simp [mismatchError, String.append_assoc]⟩

/-- Witness for C2: a device probed as xfs, a requested type ext4 and a
failing mount yield the mismatch error naming both types. -/
theorem formatAndMount_mount_error_classified_witness :
    ((getDiskFormat envFormatted "/dev/sda").1.1 ≠ "" ∧
        envFormatted.mountRes "/dev/sda" "/mnt" "ext4" (["rw"] ++ ["defaults"]) =
          some "mount failed") ∧
      (("ext4" : String) ≠ "" →
        ("ext4" : String) ≠ (getDiskFormat envFormatted "/dev/sda").1.1 →
        (formatAndMount envFormatted "/dev/sda" "/mnt" "ext4" ["rw"]).1 =
          some (mismatchError "ext4"
            ((getDiskFormat envFormatted "/dev/sda").1.1) "mount failed")) :=
  ⟨⟨by decide, rfl⟩,
    (formatAndMount_mount_error_classified envFormatted "/dev/sda" "/mnt"
      "ext4" ["rw"] "mount failed" (by decide) rfl).1.2⟩

/-- A concrete mounts environment whose content is identical on every
read. -/
def envMountsStable : MountsEnv Nat :=
  ⟨fun _ => Except.ok "a 1\n", String.length, fun s => [s.length]⟩

/-- A concrete mounts environment whose content differs on every read. -/
def envMountsChanging : MountsEnv Nat :=
  ⟨fun k => Except.ok (String.mk (List.replicate k 'a')), String.length,
    fun s => [s.length]⟩

/-- C5: when every read of the mount table yields the same content and
no read errors, getMounts succeeds within the first retry iteration and
returns the entries parsed by that first full read. -/
theorem getMounts_consistent (env : MountsEnv α) (c : String)
    (hr : ∀ k, env.readAt k = Except.ok c) :
    getMounts env = (Except.ok (env.parseFn c), 1) := by
  unfold getMounts readProcMounts
  rw [hr 0]
  simp only [procMountsRetries, getMountsLoop, readProcMounts, hr 1]
  simp

/-- Witness for C5 at a concrete stable environment. -/
theorem getMounts_consistent_witness :
    (∀ k, envMountsStable.readAt k = Except.ok "a 1\n") ∧
      getMounts envMountsStable = (Except.ok [4], 1) :=
  ⟨fun _ => rfl, getMounts_consistent envMountsStable "a 1\n" (fun _ => rfl)⟩

/-- C4: when the mount-table fingerprint differs on every read and no
read errors, getMounts performs exactly the configured number of retry
iterations and fails with the snapshot error naming the resource path
and the retry count. -/
theorem getMounts_inconsistent (env : MountsEnv α) (c : Nat → String)
    (hr : ∀ k, env.readAt k = Except.ok (c k))
    (hd : ∀ k, env.hashFn (c k) ≠ env.hashFn (c (k + 1))) :
    getMounts env = (Except.error snapshotError, procMountsRetries) := by
  unfold getMounts readProcMounts
  rw [hr 0]
  simp only [procMountsRetries, getMountsLoop, readProcMounts,
    hr 1, hr 2, hr 3]
  simp [if_neg (hd 0), if_neg (hd 1), if_neg (hd 2)]

/-- Witness for C4 at a concrete environment whose content length grows
on every read. -/
theorem getMounts_inconsistent_witness :
    (∀ k, envMountsChanging.readAt k =
        Except.ok (String.mk (List.replicate k 'a'))) ∧
      getMounts envMountsChanging =
        (Except.error snapshotError, procMountsRetries) :=
  ⟨fun _ => rfl,
    getMounts_inconsistent envMountsChanging
      (fun k => String.mk (List.replicate k 'a')) (fun _ => rfl)
      (by
        intro k
        show (List.replicate k 'a').length ≠
          (List.replicate (k + 1) 'a').length
        simp)⟩

end Gofsutil
